import Mathlib

/-!
Verification of the NeckSnake motion controller
(`src/motion/HeadMotionController.ts`) and the snake game direction logic
(`src/snake/SnakeGame.ts`).

Modelling conventions:
* JavaScript numbers are modelled as exact rationals `ℚ` (the direction
  resolver, a pure arithmetic function, is additionally stated over any
  linear ordered field so that facts about it hold for all real inputs).
* `Math.hypot`, an external math primitive whose exact value is irrational
  over `ℚ`, is passed to the functions that call it as an explicit
  function argument `hypot : ℚ → ℚ → ℚ`, exactly where the source calls
  `Math.hypot(a, b)`.
* The pose detector, camera, `requestAnimationFrame` scheduler and
  `performance.now()` clock are external collaborators: a tick receives the
  detector output (an optional landmark frame) and the current timestamp as
  inputs.  The calibration sampling loop likewise receives the list of
  valid samples it collected within its budget.
* Methods that throw are modelled as returning the unchanged state paired
  with an optional error message (the source throws before mutating state).
-/

namespace NeckSnake

/-- The four discrete directions (`HeadDirection` in the source). -/
inductive HeadDirection where
  | up
  | down
  | left
  | right
deriving DecidableEq, Repr

/-- String rendering of a direction, as interpolated by the source in
template strings such as "Direction: right". -/
def dirString : HeadDirection → String
  | .up => "up"
  | .down => "down"
  | .left => "left"
  | .right => "right"

/-- `clamp01` from the source: `Math.max(0, Math.min(1, value))`. -/
def clamp01 {α : Type} [LinearOrderedField α] (value : α) : α :=
  max 0 (min 1 value)

/-- The `{ direction, confidence }` record returned by
`HeadMotionController.resolveDirection`. -/
structure DirSignal (α : Type) where
  direction : HeadDirection
  confidence : α
deriving DecidableEq, Repr

/-- `HeadMotionController.resolveDirection(dx, dy, threshold)` (source lines
436-472).  Numeric literals: 0.95, 1.05, 1.35, 1.12, 2.1 are written as
exact fractions. -/
def resolveDirection {α : Type} [LinearOrderedField α] (dx dy threshold : α) :
    Option (DirSignal α) :=
  let horizontalThreshold := threshold * (95 / 100)
  let downThreshold := threshold * (105 / 100)
  let upThreshold := threshold * (135 / 100)
  let dominanceRatio : α := 112 / 100
  let absX := |dx|
  let absY := |dy|
  if absX ≥ absY * dominanceRatio ∧ absX > horizontalThreshold then
    some ⟨if dx > 0 then .right else .left,
          clamp01 (absX / (horizontalThreshold * (21 / 10)))⟩
  else if absY ≥ absX * dominanceRatio then
    if dy > downThreshold then
      some ⟨.down, clamp01 (dy / (downThreshold * (21 / 10)))⟩
    else if dy < -upThreshold then
      some ⟨.up, clamp01 (-dy / (upThreshold * (21 / 10)))⟩
    else none
  else none

/-- The direction-resolution rule exactly as the specification claim words
it: horizontal exactly when `|dx| ≥ 1.12*|dy|` and `|dx| > 0.95*threshold`
(`right` if `dx > 0` else `left`, confidence
`clamp01(|dx|/(2.1*0.95*threshold))`); otherwise, only when
`|dy| ≥ 1.12*|dx|`, `down` if `dy > 1.05*threshold` or `up` if
`dy < -1.35*threshold`, with the stated confidences; otherwise nothing. -/
def resolveDirectionSpec {α : Type} [LinearOrderedField α] (dx dy threshold : α) :
    Option (DirSignal α) :=
  if |dx| ≥ (112 / 100) * |dy| ∧ |dx| > (95 / 100) * threshold then
    some ⟨if dx > 0 then .right else .left,
          clamp01 (|dx| / ((21 / 10) * ((95 / 100) * threshold)))⟩
  else if |dy| ≥ (112 / 100) * |dx| ∧ dy > (105 / 100) * threshold then
    some ⟨.down, clamp01 (dy / ((21 / 10) * ((105 / 100) * threshold)))⟩
  else if |dy| ≥ (112 / 100) * |dx| ∧ dy < -((135 / 100) * threshold) then
    some ⟨.up, clamp01 (-dy / ((21 / 10) * ((135 / 100) * threshold)))⟩
  else none

/-- Claim C1: on every input, the source's direction resolver agrees with
the claim's description of it.  Stated over all real inputs. -/
theorem c1_resolveDirection_matches_spec (dx dy threshold : ℝ) :
    resolveDirection dx dy threshold = resolveDirectionSpec dx dy threshold := by
  have m1 : (112 / 100 : ℝ) * |dy| = |dy| * (112 / 100) := mul_comm _ _
  have m2 : (112 / 100 : ℝ) * |dx| = |dx| * (112 / 100) := mul_comm _ _
  have m3 : (95 / 100 : ℝ) * threshold = threshold * (95 / 100) := mul_comm _ _
  have m4 : (105 / 100 : ℝ) * threshold = threshold * (105 / 100) := mul_comm _ _
  have m5 : (135 / 100 : ℝ) * threshold = threshold * (135 / 100) := mul_comm _ _
  simp only [resolveDirection, resolveDirectionSpec, m1, m2, m3, m4, m5]
  split_ifs <;>
    first
      | rfl
      | exact congrArg some (congrArg (DirSignal.mk _) (congrArg clamp01 (by ring)))
      | tauto

/-! ### Controller state (the mutable fields of `HeadMotionController`) -/

/-- A 2D landmark point (normalized image coordinates). -/
structure Landmark where
  x : ℚ
  y : ℚ
deriving DecidableEq, Repr

/-- The per-tick detector output used by the controller: `landmarks[0]`
(nose), `landmarks[11]` (left shoulder), `landmarks[12]` (right shoulder),
each possibly absent. -/
structure LandmarkFrame where
  nose : Option Landmark
  leftShoulder : Option Landmark
  rightShoulder : Option Landmark
deriving DecidableEq, Repr

/-- `FaceBaseline` from the source. -/
structure FaceBaseline where
  noseOffsetX : ℚ
  noseOffsetY : ℚ
  shoulderWidth : ℚ
deriving DecidableEq, Repr

/-- `HeadMotionSnapshot` from the source (`lastDirection` is an optional
field there). -/
structure HeadMotionSnapshot where
  tracking : Bool
  calibrated : Bool
  fps : ℤ
  debug : String
  lastDirection : Option HeadDirection
deriving DecidableEq, Repr

/-- `HeadDirectionEvent` from the source. -/
structure HeadDirectionEvent where
  direction : HeadDirection
  confidence : ℚ
  timestamp : ℚ
deriving DecidableEq, Repr

/-- The mutable fields of `HeadMotionController` that the specified
behavior depends on.  `running` also stands in for the `video` and
`poseLandmarker` handles: the source's guards test
`!running || !video || !poseLandmarker` and the three are set and torn
down together by `start`/`stop`.  The camera stream, video element, raf
handle and pose model are external resources with no further modelled
state. -/
structure ControllerState where
  running : Bool
  mirrorHorizontal : Bool
  sensitivityScale : ℚ
  baseline : Option FaceBaseline
  frameCount : ℕ
  fpsTickStart : ℚ
  fps : ℤ
  lastEmittedDirection : Option HeadDirection
  lastEmitAt : ℚ
  candidateDirection : Option HeadDirection
  candidateFrameCount : ℕ
  candidateConfidence : ℚ
  smoothedDx : ℚ
  smoothedDy : ℚ
  snapshot : HeadMotionSnapshot
deriving DecidableEq, Repr

/-- `getSnapshot()`: returns a copy of the diagnostic snapshot. -/
def getSnapshot (s : ControllerState) : HeadMotionSnapshot :=
  s.snapshot

/-- `stop()` (source lines 176-210): tears down the camera, model and all
transient and baseline state.  The `rafId`, stream, video and pose model
teardown are external side effects; the state fields are reset exactly as
in the source. -/
def stop (s : ControllerState) : ControllerState :=
  { s with
    running := false
    baseline := none
    lastEmittedDirection := none
    lastEmitAt := 0
    candidateDirection := none
    candidateFrameCount := 0
    candidateConfidence := 0
    smoothedDx := 0
    smoothedDy := 0
    snapshot := { tracking := false, calibrated := false, fps := 0,
                  debug := "Stopped", lastDirection := none } }

/-- The identical seven-field reset performed by both lost-tracking
branches of `loop()` (source lines 300-316 and 322-338), together with the
snapshot update `{ ...snapshot, tracking: false, fps, debug }`. -/
def clearTransientTracking (s : ControllerState) (debugMsg : String) :
    ControllerState :=
  { s with
    lastEmittedDirection := none
    lastEmitAt := 0
    candidateDirection := none
    candidateFrameCount := 0
    candidateConfidence := 0
    smoothedDx := 0
    smoothedDy := 0
    snapshot := { s.snapshot with tracking := false, fps := s.fps, debug := debugMsg } }

/-- `requiredFrames` (source line 408): 1 consecutive frame when the
candidate confidence is at least 0.72, else 2. -/
def requiredFrames (conf : ℚ) : ℕ :=
  if conf ≥ 72 / 100 then 1 else 2

/-- `minGapMs` (source line 409): 220 ms when the resolved direction equals
the last emitted direction, else 90 ms. -/
def minGapMs (direction : HeadDirection) (lastEmitted : Option HeadDirection) : ℚ :=
  if some direction = lastEmitted then 220 else 90

/-- The debounce state machine of `loop()` (source lines 387-431), applied
to the already-resolved signal: clear the candidate on `none`; start a new
candidate when the direction changed; otherwise bump the frame count and
confidence and run the qualification check, suppressing a repeat of the
last emitted direction and otherwise emitting the event and clearing the
candidate. -/
def applySignal (s : ControllerState) (signal : Option (DirSignal ℚ)) (now : ℚ) :
    ControllerState × Option HeadDirectionEvent :=
  match signal with
  | none =>
    ({ s with
       candidateDirection := none
       candidateFrameCount := 0
       candidateConfidence := 0
       snapshot := { s.snapshot with debug := "Micro movement ignored" } }, none)
  | some sig =>
    if s.candidateDirection ≠ some sig.direction then
      ({ s with
         candidateDirection := some sig.direction
         candidateFrameCount := 1
         candidateConfidence := sig.confidence }, none)
    else
      let count := s.candidateFrameCount + 1
      let conf := max s.candidateConfidence sig.confidence
      let s1 := { s with candidateFrameCount := count, candidateConfidence := conf }
      if count ≥ requiredFrames conf ∧
          now - s.lastEmitAt ≥ minGapMs sig.direction s.lastEmittedDirection then
        if some sig.direction = s.lastEmittedDirection then
          (s1, none)
        else
          ({ s1 with
             snapshot := { s1.snapshot with
                           lastDirection := some sig.direction
                           debug := "Direction: " ++ dirString sig.direction }
             lastEmittedDirection := some sig.direction
             lastEmitAt := now
             candidateDirection := none
             candidateFrameCount := 0
             candidateConfidence := 0 },
           some ⟨sig.direction, conf, now⟩)
      else (s1, none)

/-- One iteration of `loop()` (source lines 284-434), given the detector
output for this frame and the timestamp `now`.  `hypot` is the external
`Math.hypot` primitive.  Returns the new state and the emitted event, if
any.  The trailing `requestAnimationFrame` re-scheduling is external. -/
def tick (hypot : ℚ → ℚ → ℚ) (s0 : ControllerState) (frame : Option LandmarkFrame)
    (now : ℚ) : ControllerState × Option HeadDirectionEvent :=
  if s0.running = false then (s0, none) else
  -- fps accounting (source lines 293-298)
  let fc := s0.frameCount + 1
  let s :=
    if now - s0.fpsTickStart ≥ 1000 then
      { s0 with
        fps := round (((fc : ℚ) * 1000) / (now - s0.fpsTickStart))
        frameCount := 0
        fpsTickStart := now }
    else { s0 with frameCount := fc }
  match frame with
  | none => (clearTransientTracking s "Tracking lost", none)
  | some lm =>
    match lm.nose, lm.leftShoulder, lm.rightShoulder with
    | some nose, some leftShoulder, some rightShoulder =>
      let shoulderWidth :=
        hypot (leftShoulder.x - rightShoulder.x) (leftShoulder.y - rightShoulder.y)
      let s :=
        { s with
          snapshot := { s.snapshot with
                        tracking := true
                        fps := s.fps
                        debug := if s.baseline.isSome then "Tracking"
                                 else "Ready to calibrate" } }
      match s.baseline with
      | none => (s, none)
      | some b =>
        if shoulderWidth < 1 / 10000 then (s, none) else
        let shoulderCenterX := (leftShoulder.x + rightShoulder.x) / 2
        let shoulderCenterY := (leftShoulder.y + rightShoulder.y) / 2
        let dxRaw := nose.x - shoulderCenterX - b.noseOffsetX
        let dy := nose.y - shoulderCenterY - b.noseOffsetY
        let dx := if s.mirrorHorizontal then -dxRaw else dxRaw
        let normalizedShoulderWidth := (shoulderWidth + b.shoulderWidth) / 2
        -- threshold = (0.09 / Math.max(sensitivityScale, 0.4)) * normalizedShoulderWidth
        let threshold := ((9 / 100) / max s.sensitivityScale (2 / 5)) * normalizedShoulderWidth
        -- low-latency smoothing, smoothing factor 0.45
        let smoothedDx := s.smoothedDx * (1 - 45 / 100) + dx * (45 / 100)
        let smoothedDy := s.smoothedDy * (1 - 45 / 100) + dy * (45 / 100)
        -- near-neutral drift adaptation with blend factor 0.035
        let b :=
          if |smoothedDx| < threshold * (65 / 100) ∧ |smoothedDy| < threshold * (75 / 100) then
            { noseOffsetX := b.noseOffsetX * (1 - 35 / 1000) + (nose.x - shoulderCenterX) * (35 / 1000)
              noseOffsetY := b.noseOffsetY * (1 - 35 / 1000) + (nose.y - shoulderCenterY) * (35 / 1000)
              shoulderWidth := b.shoulderWidth * (1 - 35 / 1000) + shoulderWidth * (35 / 1000) }
          else b
        let s := { s with smoothedDx := smoothedDx, smoothedDy := smoothedDy, baseline := some b }
        applySignal s (resolveDirection smoothedDx smoothedDy threshold) now
    | _, _, _ => (clearTransientTracking s "Need nose + shoulders in frame", none)

/-- `average` from the source:
`values.reduce((sum, v) => sum + v, 0) / Math.max(values.length, 1)`. -/
def average (values : List ℚ) : ℚ :=
  values.foldl (fun sum value => sum + value) 0 / ((max values.length 1 : ℕ) : ℚ)

/-- `captureBaselineSample()` (source lines 248-282), given the detector
result for the sampled frame (`none` when `result.landmarks?.[0]` is
absent).  The `video`/`poseLandmarker` null guard is covered by the
`running` guard of `calibrate`. -/
def captureBaselineSample (hypot : ℚ → ℚ → ℚ) (frame : Option LandmarkFrame) :
    Option FaceBaseline :=
  match frame with
  | none => none
  | some lm =>
    match lm.nose, lm.leftShoulder, lm.rightShoulder with
    | some nose, some leftShoulder, some rightShoulder =>
      let shoulderWidth :=
        hypot (leftShoulder.x - rightShoulder.x) (leftShoulder.y - rightShoulder.y)
      if shoulderWidth < 1 / 10000 then none
      else
        some { noseOffsetX := nose.x - (leftShoulder.x + rightShoulder.x) / 2
               noseOffsetY := nose.y - (leftShoulder.y + rightShoulder.y) / 2
               shoulderWidth := shoulderWidth }
    | _, _, _ => none

/-- `calibrate()` (source lines 212-246).  The sampling loop polls
`captureBaselineSample` once per animation frame until 12 valid samples
are collected or 1.8 s of wall clock elapse; that scheduler-driven loop is
external, so this function receives the list of valid samples it
collected.  A thrown error is modelled as the unchanged state paired with
the error message: the source throws before mutating any state. -/
def calibrate (s : ControllerState) (samples : List FaceBaseline) :
    ControllerState × Option String :=
  if s.running = false then (s, some "Camera not started yet.")
  else if samples.length < 6 then
    (s, some "Calibration needs nose + shoulders visible and stable.")
  else
    ({ s with
       baseline := some
         { noseOffsetX := average (samples.map FaceBaseline.noseOffsetX)
           noseOffsetY := average (samples.map FaceBaseline.noseOffsetY)
           shoulderWidth := average (samples.map FaceBaseline.shoulderWidth) }
       lastEmittedDirection := none
       lastEmitAt := 0
       candidateDirection := none
       candidateFrameCount := 0
       candidateConfidence := 0
       smoothedDx := 0
       smoothedDy := 0
       snapshot := { s.snapshot with calibrated := true, debug := "Calibrated" } }, none)

/-! ### Listener registry (`listeners = new Set<...>()`, `onDirection`) -/

/-- The `Set` of registered listeners, modelled as the insertion-ordered
list of distinct listener identities.  `Set.add` appends only when the
element is not already present. -/
def addListener (listeners : List ℕ) (listener : ℕ) : List ℕ :=
  if listener ∈ listeners then listeners else listeners ++ [listener]

/-- The unregistration handle returned by `onDirection`:
`() => { this.listeners.delete(listener) }`.  Every handle returned for
the same listener identity performs this same deletion. -/
def removeListener (listeners : List ℕ) (listener : ℕ) : List ℕ :=
  listeners.erase listener

/-- `this.listeners.forEach((listener) => listener(event))` (source line
423): the sequence of listener invocations triggered by one emitted
event, in set iteration (= insertion) order. -/
def emitInvocations (listeners : List ℕ) : List ℕ :=
  listeners

/-! ### Concrete states used by witnesses and counterexamples -/

/-- A calibrated, tracking controller with no candidate and no prior
emission. -/
def baseState : ControllerState :=
  { running := true
    mirrorHorizontal := true
    sensitivityScale := 1
    baseline := some ⟨0, 0, 1 / 5⟩
    frameCount := 0
    fpsTickStart := 0
    fps := 0
    lastEmittedDirection := none
    lastEmitAt := 0
    candidateDirection := none
    candidateFrameCount := 0
    candidateConfidence := 0
    smoothedDx := 0
    smoothedDy := 0
    snapshot := ⟨true, true, 0, "Tracking", none⟩ }

/-- `baseState` after one tick of a `right` candidate: ready to emit on the
next qualifying tick. -/
def emitReadyState : ControllerState :=
  { baseState with candidateDirection := some HeadDirection.right, candidateFrameCount := 1 }

/-- A controller that already emitted `right` and is one frame into a
fresh `right` candidate. -/
def repeatState : ControllerState :=
  { baseState with
    candidateDirection := some HeadDirection.right
    candidateFrameCount := 1
    candidateConfidence := 1 / 2
    lastEmittedDirection := some HeadDirection.right }

/-- A concrete stand-in for the external `Math.hypot` primitive; it agrees
with the true hypotenuse whenever one argument is zero. -/
def hypotAbs (a b : ℚ) : ℚ := |a| + |b|

/-! ### Claim C2 -/

/-- Claim C2 counterexample: a brand-new `right` candidate resolves with
confidence 0.9 ≥ 0.72, no prior emission and a satisfied gap, yet the tick
emits nothing: a new candidate direction is recorded and the function
returns before the qualification check. -/
theorem c2_counterexample :
    (9 / 10 : ℚ) ≥ 72 / 100 ∧
    baseState.candidateDirection ≠ some HeadDirection.right ∧
    baseState.lastEmittedDirection ≠ some HeadDirection.right ∧
    1000 - baseState.lastEmitAt ≥ minGapMs HeadDirection.right baseState.lastEmittedDirection ∧
    (applySignal baseState (some ⟨HeadDirection.right, 9 / 10⟩) 1000).2 = none ∧
    (applySignal baseState (some ⟨HeadDirection.right, 9 / 10⟩) 1000).1.candidateDirection =
      some HeadDirection.right ∧
    (applySignal baseState (some ⟨HeadDirection.right, 9 / 10⟩) 1000).1.candidateFrameCount = 1 := by
  refine ⟨by norm_num, by simp [baseState], by simp [baseState], ?_, ?_, ?_, ?_⟩ <;>
    simp [applySignal, baseState, minGapMs, requiredFrames] <;> norm_num

/-- Claim C2 (amended): the qualification check (1 frame at confidence ≥
0.72, else 2) only runs on a tick whose resolved direction equals the
already-recorded candidate, so any emitted event was preceded by a tick
that set the same candidate direction — its frame count at the check is at
least 2, which always satisfies the required-frame rule; in particular no
event is ever emitted on the first tick of a new candidate direction,
whatever its confidence. -/
theorem c2_no_first_tick_emission :
    ∀ (s : ControllerState) (signal : Option (DirSignal ℚ)) (now : ℚ)
      (e : HeadDirectionEvent),
      (applySignal s signal now).2 = some e →
      s.candidateDirection = some e.direction ∧
      s.candidateFrameCount + 1 ≥ requiredFrames e.confidence := by
  intro s signal now e h
  cases signal with
  | none => simp [applySignal] at h
  | some sig =>
    simp only [applySignal] at h
    split at h
    · simp at h
    · next hc =>
      rw [not_not] at hc
      split at h
      · next hguard =>
        split at h
        · simp at h
        · simp only at h
          obtain rfl := Option.some.inj h
          exact ⟨hc, hguard.1⟩
      · simp at h

/-- Witness for the amended claim C2: a concrete second-tick emission. -/
theorem c2_no_first_tick_emission_witness :
    (applySignal emitReadyState (some ⟨HeadDirection.right, 9 / 10⟩) 1000).2 =
      some ⟨HeadDirection.right, 9 / 10, 1000⟩ ∧
    emitReadyState.candidateDirection = some HeadDirection.right := by
  have h : (applySignal emitReadyState (some ⟨HeadDirection.right, 9 / 10⟩) 1000).2 =
      some ⟨HeadDirection.right, 9 / 10, 1000⟩ := by
    simp [applySignal, emitReadyState, baseState, requiredFrames, minGapMs] <;> norm_num
  exact ⟨h, (c2_no_first_tick_emission emitReadyState (some ⟨HeadDirection.right, 9 / 10⟩) 1000
      ⟨HeadDirection.right, 9 / 10, 1000⟩ h).1⟩

/-! ### Claim C3 -/

/-- Claim C3 counterexample: a qualifying repeat of the last emitted
direction (frame count and 220 ms gap satisfied) emits nothing — as the
claim says — but the candidate state is NOT cleared: the direction stays,
the frame count is incremented to 2 and the confidence is raised. -/
theorem c3_counterexample :
    1000 - repeatState.lastEmitAt ≥ 220 ∧
    repeatState.candidateFrameCount + 1 ≥ requiredFrames (6 / 10) ∧
    (applySignal repeatState (some ⟨HeadDirection.right, 6 / 10⟩) 1000).2 = none ∧
    (applySignal repeatState (some ⟨HeadDirection.right, 6 / 10⟩) 1000).1.candidateDirection =
      some HeadDirection.right ∧
    (applySignal repeatState (some ⟨HeadDirection.right, 6 / 10⟩) 1000).1.candidateFrameCount = 2 ∧
    (applySignal repeatState (some ⟨HeadDirection.right, 6 / 10⟩) 1000).1.candidateConfidence =
      6 / 10 := by
  refine ⟨?_, ?_, ?_, ?_, ?_, ?_⟩ <;>
    simp [applySignal, repeatState, baseState, requiredFrames, minGapMs] <;> norm_num

/-- Claim C3 (amended): on any tick whose resolved direction equals both
the current candidate and `lastEmittedDirection`, no event is emitted and
the candidate state is retained, not cleared: `candidateDirection` is
unchanged, `candidateFrameCount` is incremented and `candidateConfidence`
is raised to the maximum of itself and the new confidence (this holds
whether or not the frame-count and gap checks pass). -/
theorem c3_repeat_suppressed_candidate_retained :
    ∀ (s : ControllerState) (d : HeadDirection) (c now : ℚ),
      s.candidateDirection = some d →
      s.lastEmittedDirection = some d →
      applySignal s (some ⟨d, c⟩) now =
        ({ s with
           candidateFrameCount := s.candidateFrameCount + 1
           candidateConfidence := max s.candidateConfidence c }, none) := by
  intro s d c now hcd hle
  simp only [applySignal, hcd, hle, ne_eq, not_true_eq_false, if_false]
  split_ifs <;> rfl

/-- Witness for the amended claim C3 at a concrete repeat tick. -/
theorem c3_repeat_suppressed_witness :
    applySignal repeatState (some ⟨HeadDirection.right, 6 / 10⟩) 1000 =
      ({ repeatState with
         candidateFrameCount := repeatState.candidateFrameCount + 1
         candidateConfidence := max repeatState.candidateConfidence (6 / 10) }, none) :=
  c3_repeat_suppressed_candidate_retained repeatState HeadDirection.right (6 / 10) 1000
    rfl rfl

/-! ### Claim C4 -/

/-- The required-frame rule never demands more than 2 frames. -/
theorem requiredFrames_le_two (conf : ℚ) : requiredFrames conf ≤ 2 := by
  unfold requiredFrames
  split_ifs <;> omega

/-- Claim C4: every emitted event comes at least 90 ms after `lastEmitAt`;
a candidate for a direction different from `lastEmittedDirection` whose
frame count is established (≥ 1 before the tick) is emitted whenever at
least 90 ms have elapsed; and the minimum-gap rule is 220 ms for a repeat
of `lastEmittedDirection` and 90 ms otherwise. -/
theorem c4_emit_gap_rules :
    (∀ (s : ControllerState) (signal : Option (DirSignal ℚ)) (now : ℚ)
        (e : HeadDirectionEvent),
        (applySignal s signal now).2 = some e → now - s.lastEmitAt ≥ 90) ∧
    (∀ (s : ControllerState) (d : HeadDirection) (c now : ℚ),
        s.candidateDirection = some d →
        1 ≤ s.candidateFrameCount →
        s.lastEmittedDirection ≠ some d →
        now - s.lastEmitAt ≥ 90 →
        (applySignal s (some ⟨d, c⟩) now).2 =
          some ⟨d, max s.candidateConfidence c, now⟩) ∧
    (∀ d : HeadDirection, minGapMs d (some d) = 220) ∧
    (∀ (d : HeadDirection) (lastEmitted : Option HeadDirection),
        lastEmitted ≠ some d → minGapMs d lastEmitted = 90) := by
  refine ⟨?_, ?_, ?_, ?_⟩
  · intro s signal now e h
    cases signal with
    | none => simp [applySignal] at h
    | some sig =>
      simp only [applySignal] at h
      split at h
      · simp at h
      · split at h
        · next hguard =>
          split at h
          · simp at h
          · next hne =>
            have hgap := hguard.2
            rw [minGapMs, if_neg hne] at hgap
            linarith
        · simp at h
  · intro s d c now hcd hcount hne hgap
    have hmg : minGapMs d s.lastEmittedDirection = 90 := by
      rw [minGapMs, if_neg (fun he => hne he.symm)]
    simp only [applySignal, hcd, ne_eq, not_true_eq_false, if_false]
    rw [if_pos, if_neg (fun he => hne he.symm)]
    constructor
    · have := requiredFrames_le_two (max s.candidateConfidence c)
      omega
    · rw [hmg]; exact hgap
  · intro d; rw [minGapMs, if_pos rfl]
  · intro d lastEmitted hne
    rw [minGapMs, if_neg (fun he => hne he.symm)]

/-- Witness for claim C4: a concrete emission exactly 1000 ms after the
previous one, with both gap constants evaluated. -/
theorem c4_emit_gap_rules_witness :
    1000 - emitReadyState.lastEmitAt ≥ 90 ∧
    (applySignal emitReadyState (some ⟨HeadDirection.right, 9 / 10⟩) 1000).2 =
      some ⟨HeadDirection.right, max emitReadyState.candidateConfidence (9 / 10), 1000⟩ ∧
    minGapMs HeadDirection.left (some HeadDirection.left) = 220 ∧
    minGapMs HeadDirection.left none = 90 := by
  have h := c4_emit_gap_rules.2.1 emitReadyState HeadDirection.right (9 / 10) 1000
    rfl (by norm_num [emitReadyState, baseState]) (by simp [emitReadyState, baseState])
    (by norm_num [emitReadyState, baseState])
  exact ⟨c4_emit_gap_rules.1 emitReadyState (some ⟨HeadDirection.right, 9 / 10⟩) 1000
           ⟨HeadDirection.right, max emitReadyState.candidateConfidence (9 / 10), 1000⟩ h,
         h,
         c4_emit_gap_rules.2.2.1 HeadDirection.left,
         c4_emit_gap_rules.2.2.2 HeadDirection.left none (by simp)⟩

/-! ### Claim C5 -/

/-- `average` is the arithmetic mean on any non-empty list. -/
theorem average_eq_sum_div (l : List ℚ) (h : 1 ≤ l.length) :
    average l = l.sum / (l.length : ℚ) := by
  unfold average
  rw [Nat.max_eq_left h, List.sum_eq_foldl]

/-- Claim C5: with at least 6 valid samples, `calibrate` succeeds, the
baseline is the arithmetic mean of the samples' fields, and the smoothing,
candidate and emission state are all reset. -/
theorem c5_calibration_mean_and_reset :
    ∀ (s : ControllerState) (samples : List FaceBaseline),
      s.running = true → 6 ≤ samples.length →
      calibrate s samples =
        ({ s with
           baseline := some
             { noseOffsetX := (samples.map FaceBaseline.noseOffsetX).sum / (samples.length : ℚ)
               noseOffsetY := (samples.map FaceBaseline.noseOffsetY).sum / (samples.length : ℚ)
               shoulderWidth := (samples.map FaceBaseline.shoulderWidth).sum / (samples.length : ℚ) }
           lastEmittedDirection := none
           lastEmitAt := 0
           candidateDirection := none
           candidateFrameCount := 0
           candidateConfidence := 0
           smoothedDx := 0
           smoothedDy := 0
           snapshot := { s.snapshot with calibrated := true, debug := "Calibrated" } }, none) := by
  intro s samples hrun hlen
  rw [calibrate, if_neg (by simp [hrun]), if_neg (by omega)]
  have h1 : 1 ≤ samples.length := by omega
  rw [average_eq_sum_div _ (by simpa using h1), average_eq_sum_div _ (by simpa using h1),
    average_eq_sum_div _ (by simpa using h1)]
  simp

/-- Six concrete calibration samples. -/
def c5Samples : List FaceBaseline :=
  [⟨1, 2, 3⟩, ⟨2, 3, 4⟩, ⟨3, 4, 5⟩, ⟨4, 5, 6⟩, ⟨5, 6, 7⟩, ⟨6, 7, 8⟩]

/-- Witness for claim C5 on a concrete run. -/
theorem c5_calibration_mean_and_reset_witness :
    calibrate baseState c5Samples =
      ({ baseState with
         baseline := some
           { noseOffsetX := (c5Samples.map FaceBaseline.noseOffsetX).sum / (c5Samples.length : ℚ)
             noseOffsetY := (c5Samples.map FaceBaseline.noseOffsetY).sum / (c5Samples.length : ℚ)
             shoulderWidth := (c5Samples.map FaceBaseline.shoulderWidth).sum / (c5Samples.length : ℚ) }
         lastEmittedDirection := none
         lastEmitAt := 0
         candidateDirection := none
         candidateFrameCount := 0
         candidateConfidence := 0
         smoothedDx := 0
         smoothedDy := 0
         snapshot := { baseState.snapshot with calibrated := true, debug := "Calibrated" } }, none) :=
  c5_calibration_mean_and_reset baseState c5Samples rfl (by simp [c5Samples])

/-! ### Claim C6 -/

/-- Claim C6: with fewer than 6 valid samples, `calibrate` fails with the
calibration error and the state — in particular the baseline, present or
absent — is left untouched; and a sampling poll yields a valid sample only
when the detector returned a frame, all of nose and both shoulders are
present, and the computed shoulder width is at least 1e-4 (in which case
the sample is the nose offset from the shoulder center plus the shoulder
width). -/
theorem c6_calibration_failure :
    (∀ (s : ControllerState) (samples : List FaceBaseline),
        s.running = true → samples.length < 6 →
        calibrate s samples =
          (s, some "Calibration needs nose + shoulders visible and stable.")) ∧
    (∀ hypot : ℚ → ℚ → ℚ, captureBaselineSample hypot none = none) ∧
    (∀ (hypot : ℚ → ℚ → ℚ) (lm : LandmarkFrame),
        lm.nose = none ∨ lm.leftShoulder = none ∨ lm.rightShoulder = none →
        captureBaselineSample hypot (some lm) = none) ∧
    (∀ (hypot : ℚ → ℚ → ℚ) (nose ls rs : Landmark),
        hypot (ls.x - rs.x) (ls.y - rs.y) < 1 / 10000 →
        captureBaselineSample hypot (some ⟨some nose, some ls, some rs⟩) = none) ∧
    (∀ (hypot : ℚ → ℚ → ℚ) (nose ls rs : Landmark),
        ¬ hypot (ls.x - rs.x) (ls.y - rs.y) < 1 / 10000 →
        captureBaselineSample hypot (some ⟨some nose, some ls, some rs⟩) =
          some { noseOffsetX := nose.x - (ls.x + rs.x) / 2
                 noseOffsetY := nose.y - (ls.y + rs.y) / 2
                 shoulderWidth := hypot (ls.x - rs.x) (ls.y - rs.y) }) := by
  refine ⟨?_, ?_, ?_, ?_, ?_⟩
  · intro s samples hrun hlen
    rw [calibrate, if_neg (by simp [hrun]), if_pos hlen]
  · intro hypot; rfl
  · intro hypot lm h
    obtain ⟨n, l, r⟩ := lm
    simp only at h
    rcases h with rfl | rfl | rfl
    · rfl
    · cases n <;> rfl
    · cases n <;> cases l <;> rfl
  · intro hypot nose ls rs h
    simp only [captureBaselineSample, if_pos h]
  · intro hypot nose ls rs h
    simp only [captureBaselineSample, if_neg h]

/-- Witness for claim C6 with concrete failing inputs. -/
theorem c6_calibration_failure_witness :
    calibrate baseState [] =
      (baseState, some "Calibration needs nose + shoulders visible and stable.") ∧
    captureBaselineSample hypotAbs none = none ∧
    captureBaselineSample hypotAbs (some ⟨none, some ⟨0, 0⟩, some ⟨1, 0⟩⟩) = none ∧
    captureBaselineSample hypotAbs (some ⟨some ⟨0, 0⟩, some ⟨0, 0⟩, some ⟨0, 0⟩⟩) = none ∧
    captureBaselineSample hypotAbs (some ⟨some ⟨0, 0⟩, some ⟨1, 0⟩, some ⟨0, 0⟩⟩) =
      some { noseOffsetX := (0 : ℚ) - ((1 : ℚ) + 0) / 2
             noseOffsetY := (0 : ℚ) - ((0 : ℚ) + 0) / 2
             shoulderWidth := hypotAbs ((1 : ℚ) - 0) ((0 : ℚ) - 0) } :=
  ⟨c6_calibration_failure.1 baseState [] rfl (by simp),
   c6_calibration_failure.2.1 hypotAbs,
   c6_calibration_failure.2.2.1 hypotAbs ⟨none, some ⟨0, 0⟩, some ⟨1, 0⟩⟩ (Or.inl rfl),
   c6_calibration_failure.2.2.2.1 hypotAbs ⟨0, 0⟩ ⟨0, 0⟩ ⟨0, 0⟩ (by norm_num [hypotAbs]),
   c6_calibration_failure.2.2.2.2 hypotAbs ⟨0, 0⟩ ⟨1, 0⟩ ⟨0, 0⟩ (by norm_num [hypotAbs])⟩

/-! ### Claim C7 -/

/-- Claim C7: a tick whose snapshot is absent or lacks the nose or either
shoulder emits nothing, clears the smoothed signal, the candidate state
and the emission state, reports `tracking = false`, and leaves the
baseline untouched (so no candidate survives a dropped frame). -/
theorem c7_tracking_loss_clears_state :
    ∀ (hypot : ℚ → ℚ → ℚ) (s : ControllerState) (frame : Option LandmarkFrame) (now : ℚ),
      s.running = true →
      (frame = none ∨ ∃ lm, frame = some lm ∧
        (lm.nose = none ∨ lm.leftShoulder = none ∨ lm.rightShoulder = none)) →
      (tick hypot s frame now).2 = none ∧
      (tick hypot s frame now).1.smoothedDx = 0 ∧
      (tick hypot s frame now).1.smoothedDy = 0 ∧
      (tick hypot s frame now).1.candidateDirection = none ∧
      (tick hypot s frame now).1.candidateFrameCount = 0 ∧
      (tick hypot s frame now).1.candidateConfidence = 0 ∧
      (tick hypot s frame now).1.lastEmittedDirection = none ∧
      (tick hypot s frame now).1.lastEmitAt = 0 ∧
      (tick hypot s frame now).1.snapshot.tracking = false ∧
      (tick hypot s frame now).1.baseline = s.baseline := by
  intro hypot s frame now hrun hfr
  rcases hfr with rfl | ⟨lm, rfl, h⟩
  · by_cases hf : now - s.fpsTickStart ≥ 1000 <;>
      simp [tick, hrun, hf, clearTransientTracking]
  · obtain ⟨n, l, r⟩ := lm
    simp only at h
    by_cases hf : now - s.fpsTickStart ≥ 1000 <;>
      cases n <;> cases l <;> cases r <;>
      simp_all [tick, clearTransientTracking] <;>
      (try (split <;> rfl))

/-- Witness for claim C7: a dropped frame on a live controller. -/
theorem c7_tracking_loss_clears_state_witness :
    (tick hypotAbs baseState none 0).2 = none ∧
    (tick hypotAbs baseState none 0).1.smoothedDx = 0 ∧
    (tick hypotAbs baseState none 0).1.smoothedDy = 0 ∧
    (tick hypotAbs baseState none 0).1.candidateDirection = none ∧
    (tick hypotAbs baseState none 0).1.candidateFrameCount = 0 ∧
    (tick hypotAbs baseState none 0).1.candidateConfidence = 0 ∧
    (tick hypotAbs baseState none 0).1.lastEmittedDirection = none ∧
    (tick hypotAbs baseState none 0).1.lastEmitAt = 0 ∧
    (tick hypotAbs baseState none 0).1.snapshot.tracking = false ∧
    (tick hypotAbs baseState none 0).1.baseline = baseState.baseline :=
  c7_tracking_loss_clears_state hypotAbs baseState none 0 rfl (Or.inl rfl)

/-! ### Claim C8 -/

/-- Claim C8: `stop` is idempotent — a second `stop` changes nothing and in
particular yields the identical snapshot — and after any `stop` the
snapshot reports `tracking = false` and `calibrated = false` while the
baseline, candidate, emission and smoothing state are all cleared. -/
theorem c8_stop_idempotent (s : ControllerState) :
    stop (stop s) = stop s ∧
    getSnapshot (stop (stop s)) = getSnapshot (stop s) ∧
    getSnapshot (stop s) =
      { tracking := false, calibrated := false, fps := 0, debug := "Stopped",
        lastDirection := none } ∧
    (stop s).baseline = none ∧
    (stop s).candidateDirection = none ∧
    (stop s).candidateFrameCount = 0 ∧
    (stop s).candidateConfidence = 0 ∧
    (stop s).lastEmittedDirection = none ∧
    (stop s).lastEmitAt = 0 ∧
    (stop s).smoothedDx = 0 ∧
    (stop s).smoothedDy = 0 :=
  ⟨rfl, rfl, rfl, rfl, rfl, rfl, rfl, rfl, rfl, rfl, rfl⟩

/-! ### Claim C10 -/

/-- Claim C10: adding the same listener twice to the `Set` keeps a single
copy, so one emitted event invokes it exactly once; after running either
returned unregistration handle (both delete the listener), an emitted
event does not invoke it at all. -/
theorem c10_duplicate_listener_invoked_once :
    ∀ (listeners : List ℕ) (listener : ℕ),
      listener ∉ listeners →
      (emitInvocations (addListener (addListener listeners listener) listener)).count
        listener = 1 ∧
      (emitInvocations (removeListener (addListener (addListener listeners listener) listener)
        listener)).count listener = 0 := by
  intro listeners listener h
  have h1 : addListener listeners listener = listeners ++ [listener] := by
    rw [addListener, if_neg h]
  have h2 : addListener (listeners ++ [listener]) listener = listeners ++ [listener] := by
    rw [addListener, if_pos (by simp)]
  rw [h1, h2]
  constructor
  · simp [emitInvocations, List.count_eq_zero_of_not_mem h]
  · rw [emitInvocations, removeListener, List.count_erase_self]
    simp [List.count_eq_zero_of_not_mem h]

/-- Witness for claim C10 on a concrete registry. -/
theorem c10_duplicate_listener_invoked_once_witness :
    (emitInvocations (addListener (addListener [] 0) 0)).count 0 = 1 ∧
    (emitInvocations (removeListener (addListener (addListener [] 0) 0) 0)).count 0 = 0 :=
  c10_duplicate_listener_invoked_once [] 0 (by simp)

/-! ### The snake game (`src/snake/SnakeGame.ts`): direction handling -/

/-- A grid point (`Point` in the source; grid coordinates are integers). -/
structure SnakePoint where
  x : ℤ
  y : ℤ
deriving DecidableEq, Repr

/-- The game-logic fields of `SnakeGame` (canvas, cell size and callbacks
are external rendering concerns). -/
structure SnakeState where
  cols : ℤ
  rows : ℤ
  wrapAround : Bool
  snake : List SnakePoint
  food : SnakePoint
  direction : SnakePoint
  nextDirection : SnakePoint
  running : Bool
  score : ℕ
deriving DecidableEq, Repr

/-- The update `setDirection` performs on `nextDirection` (source lines
667-688): each branch turns only when the pending direction's matching
axis component is zero, otherwise the call is a no-op. -/
def dirStep (current : SnakePoint) (d : HeadDirection) : SnakePoint :=
  if d = HeadDirection.up ∧ current.y = 0 then ⟨0, -1⟩
  else if d = HeadDirection.down ∧ current.y = 0 then ⟨0, 1⟩
  else if d = HeadDirection.left ∧ current.x = 0 then ⟨-1, 0⟩
  else if d = HeadDirection.right ∧ current.x = 0 then ⟨1, 0⟩
  else current

/-- `SnakeGame.setDirection` (source lines 667-688). -/
def snakeSetDirection (g : SnakeState) (d : HeadDirection) : SnakeState :=
  { g with nextDirection := dirStep g.nextDirection d }

/-- `SnakeGame.tick` (source lines 703-762).  `newFood` is the point the
external `spawnFood` randomness would produce on a growth step; drawing
and the score/game-over callbacks are external side effects. -/
def snakeTick (g : SnakeState) (newFood : SnakePoint) : SnakeState :=
  if g.running = false then g else
  match g.snake with
  | [] => g
  | head :: _ =>
    let g := { g with direction := g.nextDirection }
    let nextX := head.x + g.direction.x
    let nextY := head.y + g.direction.y
    if (nextX < 0 ∨ nextX ≥ g.cols ∨ nextY < 0 ∨ nextY ≥ g.rows) ∧ g.wrapAround = false then
      { g with running := false }
    else
      let nextX := if g.wrapAround = true then
          (if nextX < 0 then g.cols - 1 else if nextX ≥ g.cols then 0 else nextX)
        else nextX
      let nextY := if g.wrapAround = true then
          (if nextY < 0 then g.rows - 1 else if nextY ≥ g.rows then 0 else nextY)
        else nextY
      let nextHead : SnakePoint := ⟨nextX, nextY⟩
      let willGrow : Bool := nextHead.x == g.food.x && nextHead.y == g.food.y
      let bodyToCheck := if willGrow then g.snake else g.snake.dropLast
      if bodyToCheck.any (fun part => part.x == nextHead.x && part.y == nextHead.y) then
        { g with running := false }
      else
        let g := { g with snake := nextHead :: g.snake }
        if willGrow then { g with score := g.score + 1, food := newFood }
        else { g with snake := g.snake.dropLast }

/-- An interleaved stream of `setDirection` calls and game ticks (each tick
carrying the external food-spawn point). -/
inductive SnakeOp where
  | setDir (d : HeadDirection)
  | tickOp (newFood : SnakePoint)
deriving DecidableEq, Repr

/-- The movement directions the snake applies, in order: on each tick of a
running game with a nonempty snake, `tick` assigns
`direction := nextDirection` and moves the head by it. -/
def appliedDirections : SnakeState → List SnakeOp → List SnakePoint
  | _, [] => []
  | g, SnakeOp.setDir d :: ops => appliedDirections (snakeSetDirection g d) ops
  | g, SnakeOp.tickOp f :: ops =>
    if g.running = true ∧ g.snake ≠ [] then
      g.nextDirection :: appliedDirections (snakeTick g f) ops
    else
      appliedDirections (snakeTick g f) ops

/-- No two `setDirection` calls in immediate succession (so at most one
turn is requested between consecutive ticks). -/
def noDoubleSetDir : List SnakeOp → Bool
  | SnakeOp.setDir _ :: SnakeOp.setDir _ :: _ => false
  | _ :: rest => noDoubleSetDir rest
  | [] => true

/-- `b` points exactly opposite to `a`. -/
def oppositePt (a b : SnakePoint) : Prop :=
  b.x = -a.x ∧ b.y = -a.y

/-- The four unit grid directions the game steers by. -/
def unitDir (p : SnakePoint) : Prop :=
  p = ⟨1, 0⟩ ∨ p = ⟨-1, 0⟩ ∨ p = ⟨0, 1⟩ ∨ p = ⟨0, -1⟩

instance (a b : SnakePoint) : Decidable (oppositePt a b) :=
  decidable_of_iff (b.x = -a.x ∧ b.y = -a.y) Iff.rfl

instance (p : SnakePoint) : Decidable (unitDir p) :=
  decidable_of_iff (p = ⟨1, 0⟩ ∨ p = ⟨-1, 0⟩ ∨ p = ⟨0, 1⟩ ∨ p = ⟨0, -1⟩) Iff.rfl

/-- One `setDirection` step never turns a unit direction into its exact
opposite, and keeps it a unit direction. -/
theorem dirStep_unit (p : SnakePoint) (d : HeadDirection) (hp : unitDir p) :
    unitDir (dirStep p d) ∧ ¬ oppositePt p (dirStep p d) := by
  rcases hp with rfl | rfl | rfl | rfl <;> cases d <;> decide

/-- A unit direction is never its own opposite. -/
theorem unit_not_opposite_self (p : SnakePoint) (hp : unitDir p) : ¬ oppositePt p p := by
  rcases hp with rfl | rfl | rfl | rfl <;> decide

set_option maxHeartbeats 1000000 in
/-- `tick` never changes the pending `nextDirection`. -/
theorem snakeTick_nextDirection (g : SnakeState) (f : SnakePoint) :
    (snakeTick g f).nextDirection = g.nextDirection := by
  rw [snakeTick]
  split
  · rfl
  · split
    · rfl
    · dsimp only
      split_ifs <;> rfl

/-- `tick` on a stopped game or an empty snake is the identity. -/
theorem snakeTick_dead (g : SnakeState) (f : SnakePoint)
    (h : ¬(g.running = true ∧ g.snake ≠ [])) : snakeTick g f = g := by
  by_cases hr : g.running = false
  · rw [snakeTick, if_pos hr]
  · have hr' : g.running = true := by revert hr; cases g.running <;> simp
    have hs : g.snake = [] := by
      by_contra hs
      exact h ⟨hr', hs⟩
    rw [snakeTick, if_neg hr, hs]

/-- From a stopped game or an empty snake, no tick is ever recorded. -/
theorem appliedDirections_dead :
    ∀ (ops : List SnakeOp) (g : SnakeState),
      ¬(g.running = true ∧ g.snake ≠ []) → appliedDirections g ops = [] := by
  intro ops
  induction ops with
  | nil => intro g _; rfl
  | cons op rest ih =>
    intro g h
    cases op with
    | setDir d =>
      show appliedDirections (snakeSetDirection g d) rest = []
      exact ih _ (by simpa [snakeSetDirection] using h)
    | tickOp f =>
      have happ : appliedDirections g (SnakeOp.tickOp f :: rest) =
          appliedDirections (snakeTick g f) rest := by
        simp [appliedDirections, h]
      rw [happ, snakeTick_dead g f h]
      exact ih g h

/-- Induction core for the amended claim C9: under no-double-turns the
applied-direction trace has no reversal, and its first entry is the
pending direction or one turn away from it. -/
theorem appliedDirections_aux :
    ∀ (ops : List SnakeOp) (g : SnakeState),
      unitDir g.nextDirection → noDoubleSetDir ops = true →
      List.Chain' (fun a b => ¬ oppositePt a b) (appliedDirections g ops) ∧
      ∀ b l, appliedDirections g ops = b :: l →
        b = g.nextDirection ∨ ∃ d, b = dirStep g.nextDirection d := by
  intro ops
  induction ops with
  | nil =>
    intro g hu hn
    exact ⟨List.chain'_nil, fun b l hb => by simp [appliedDirections] at hb⟩
  | cons op rest ih =>
    intro g hu hn
    cases op with
    | setDir d =>
      have hstep := dirStep_unit g.nextDirection d hu
      have happ : appliedDirections g (SnakeOp.setDir d :: rest) =
          appliedDirections (snakeSetDirection g d) rest := rfl
      cases rest with
      | nil =>
        refine ⟨by rw [happ]; exact List.chain'_nil, ?_⟩
        intro b l hb
        rw [happ] at hb
        simp [appliedDirections] at hb
      | cons op2 rest2 =>
        cases op2 with
        | setDir d2 => simp [noDoubleSetDir] at hn
        | tickOp f =>
          have hn' : noDoubleSetDir (SnakeOp.tickOp f :: rest2) = true := by
            simpa [noDoubleSetDir] using hn
          have hu' : unitDir (snakeSetDirection g d).nextDirection := hstep.1
          have ihh := ih (snakeSetDirection g d) hu' hn'
          refine ⟨by rw [happ]; exact ihh.1, ?_⟩
          intro b l hb
          rw [happ] at hb
          by_cases hg : (snakeSetDirection g d).running = true ∧ (snakeSetDirection g d).snake ≠ []
          · have hcons : appliedDirections (snakeSetDirection g d) (SnakeOp.tickOp f :: rest2) =
                (snakeSetDirection g d).nextDirection ::
                  appliedDirections (snakeTick (snakeSetDirection g d) f) rest2 := by
              simp [appliedDirections, hg]
            rw [hcons] at hb
            exact Or.inr ⟨d, ((List.cons.inj hb).1).symm⟩
          · rw [appliedDirections_dead _ _ hg] at hb
            simp at hb
    | tickOp f =>
      have hn' : noDoubleSetDir rest = true := by simpa [noDoubleSetDir] using hn
      have hu1 : unitDir (snakeTick g f).nextDirection := by
        rw [snakeTick_nextDirection]; exact hu
      have ihh := ih (snakeTick g f) hu1 hn'
      by_cases hg : g.running = true ∧ g.snake ≠ []
      · have happ : appliedDirections g (SnakeOp.tickOp f :: rest) =
            g.nextDirection :: appliedDirections (snakeTick g f) rest := by
          simp [appliedDirections, hg]
        refine ⟨?_, ?_⟩
        · rw [happ, List.chain'_cons']
          refine ⟨?_, ihh.1⟩
          intro b hb
          cases hl : appliedDirections (snakeTick g f) rest with
          | nil => rw [hl] at hb; simp at hb
          | cons b0 l0 =>
            rw [hl] at hb
            simp only [List.head?_cons, Option.mem_def, Option.some.injEq] at hb
            subst hb
            rcases ihh.2 b0 l0 hl with h1 | ⟨d, h1⟩
            · rw [snakeTick_nextDirection] at h1
              rw [h1]
              exact unit_not_opposite_self _ hu
            · rw [snakeTick_nextDirection] at h1
              rw [h1]
              exact (dirStep_unit _ d hu).2
        · intro b l hb
          rw [happ] at hb
          exact Or.inl ((List.cons.inj hb).1).symm
      · refine ⟨?_, ?_⟩
        · rw [appliedDirections_dead _ _ hg]
          exact List.chain'_nil
        · intro b l hb
          rw [appliedDirections_dead _ _ hg] at hb
          simp at hb

/-- The default game immediately after `reset()` with the game started:
28×18 grid, no wrap, 3-cell snake at the center heading right. -/
def c9Start : SnakeState :=
  { cols := 28
    rows := 18
    wrapAround := false
    snake := [⟨14, 9⟩, ⟨13, 9⟩, ⟨12, 9⟩]
    food := ⟨0, 0⟩
    direction := ⟨1, 0⟩
    nextDirection := ⟨1, 0⟩
    running := true
    score := 0 }

/-- Claim C9 counterexample: two `setDirection` calls between consecutive
ticks (up, then left, from a rightward heading) make the second tick apply
the exact opposite of the first tick's direction — the turning rule only
checks the pending `nextDirection`, so the trace reverses. -/
theorem c9_counterexample :
    appliedDirections c9Start
        [SnakeOp.tickOp ⟨0, 0⟩, SnakeOp.setDir HeadDirection.up,
         SnakeOp.setDir HeadDirection.left, SnakeOp.tickOp ⟨0, 0⟩] =
      [⟨1, 0⟩, ⟨-1, 0⟩] ∧
    oppositePt ⟨1, 0⟩ ⟨-1, 0⟩ ∧
    ¬ List.Chain' (fun a b => ¬ oppositePt a b)
      (appliedDirections c9Start
        [SnakeOp.tickOp ⟨0, 0⟩, SnakeOp.setDir HeadDirection.up,
         SnakeOp.setDir HeadDirection.left, SnakeOp.tickOp ⟨0, 0⟩]) := by
  have happ : appliedDirections c9Start
      [SnakeOp.tickOp ⟨0, 0⟩, SnakeOp.setDir HeadDirection.up,
       SnakeOp.setDir HeadDirection.left, SnakeOp.tickOp ⟨0, 0⟩] =
      [⟨1, 0⟩, ⟨-1, 0⟩] := by decide
  refine ⟨happ, by decide, fun hch => ?_⟩
  rw [happ] at hch
  exact (List.chain'_cons.mp hch).1 (by decide)

/-- Claim C9 (amended): the turning rule checks only the pending
`nextDirection`, so it prevents reversal exactly when turn requests are
not issued twice in immediate succession: for every op sequence with no
two adjacent `setDirection` calls, started from any state whose pending
direction is one of the four unit directions, consecutive applied
movement directions are never exact opposites.  (Two back-to-back calls,
as in the counterexample, can reverse.) -/
theorem c9_no_reversal_under_single_turns :
    ∀ (ops : List SnakeOp) (g : SnakeState),
      unitDir g.nextDirection → noDoubleSetDir ops = true →
      List.Chain' (fun a b => ¬ oppositePt a b) (appliedDirections g ops) :=
  fun ops g hu hn => (appliedDirections_aux ops g hu hn).1

/-- Witness for the amended claim C9: tick, turn up, tick, turn left,
tick — a legal single-turn-per-tick trace with no reversal. -/
theorem c9_no_reversal_witness :
    List.Chain' (fun a b => ¬ oppositePt a b)
      (appliedDirections c9Start
        [SnakeOp.tickOp ⟨0, 0⟩, SnakeOp.setDir HeadDirection.up,
         SnakeOp.tickOp ⟨0, 0⟩, SnakeOp.setDir HeadDirection.left,
         SnakeOp.tickOp ⟨0, 0⟩]) :=
  c9_no_reversal_under_single_turns
    [SnakeOp.tickOp ⟨0, 0⟩, SnakeOp.setDir HeadDirection.up,
     SnakeOp.tickOp ⟨0, 0⟩, SnakeOp.setDir HeadDirection.left,
     SnakeOp.tickOp ⟨0, 0⟩] c9Start (by decide) (by decide)

end NeckSnake
